import Mathlib

/-!
Shallow embedding of `src/memex/models/annotation.py`.

The file defines a single persisted model class ` Annotation` whose fields
are SQLAlchemy columns.  In-memory, every column of a Python model object
holds either a value or `None`, so each field is embedded as an `Option`.
The two collaborator routines `markdown.render` and `uri.normalize` live
outside this repository; the setters are therefore parametrised over them
as opaque function arguments of type `Option String → Option String`
(they receive whatever value the setter was given, including `None`).
-/

/-- One annotation record.  Field names follow the Python attributes:
`_text`, `_text_rendered`, `_target_uri`, `_target_uri_normalized` are the
private backing columns of the hybrid properties; the remaining fields are
ordinary columns.  UUIDs and serialized selector objects are modelled as
strings, timestamps as naturals, the `extra` JSONB mapping as an
association list. -/
structure Annotation where
  id : Option String
  created : Option Nat
  updated : Option Nat
  userid : Option String
  groupid : Option String
  _text : Option String
  _text_rendered : Option String
  tags : Option (List String)
  shared : Option Bool
  _target_uri : Option String
  _target_uri_normalized : Option String
  target_selectors : Option (List String)
  references : Option (List String)
  extra : Option (List (String × String))
  deleted : Option Bool
  document_id : Option Nat
  deriving Repr, DecidableEq

namespace Annotation

/-- The record produced by default construction: every column with a
Python-side `default=` takes that value (`default=list` gives the empty
sequence, `default=dict` the empty mapping, `default=datetime.utcnow` the
current time, passed in as `now`); columns with only a server-side
default (`id`) or no default at all (`userid`, `tags`, the text and URI
pairs, `document_id`) are unset. -/
def mkDefault (now : Nat) : Annotation :=
  { id := none
    created := some now
    updated := some now
    userid := none
    groupid := some "__world__"
    _text := none
    _text_rendered := none
    tags := none
    shared := some false
    _target_uri := none
    _target_uri_normalized := none
    target_selectors := some []
    references := some []
    extra := some []
    deleted := some false
    document_id := none }

/-- Getter of the `target_uri` hybrid property: returns the backing
column unchanged. -/
def target_uri (a : Annotation ) : Option String :=
  a._target_uri

/-- Setter of the `target_uri` hybrid property: stores the raw value and
synchronously stores `uri.normalize(value)` in the normalized column.
`normalize` stands for the external `uri.normalize` collaborator. -/
def set_target_uri (normalize : Option String → Option String)
    (a : Annotation ) (value : Option String) : Annotation :=
  { a with _target_uri := value, _target_uri_normalized := normalize value }

/-- Getter of the `target_uri_normalized` hybrid property (it has no
setter). -/
def target_uri_normalized (a : Annotation ) : Option String :=
  a._target_uri_normalized

/-- Getter of the `text` hybrid property: returns the backing column
unchanged. -/
def text (a : Annotation ) : Option String :=
  a._text

/-- Setter of the `text` hybrid property: stores the raw value and
synchronously stores `markdown.render(value)` in the rendered column.
`render` stands for the external `markdown.render` collaborator. -/
def set_text (render : Option String → Option String)
    (a : Annotation ) (value : Option String) : Annotation :=
  { a with _text := value, _text_rendered := render value }

/-- Getter of the `text_rendered` hybrid property (it has no setter). -/
def text_rendered (a : Annotation ) : Option String :=
  a._text_rendered

/-- `parent_id`: under the truthiness guard `if self.references:` (false
for both `None` and the empty list) returns `self.references[-1]`, the
last element; otherwise falls through and returns `None`. -/
def parent_id (a : Annotation ) : Option String :=
  match a.references with
  | some (x :: xs) => some ((x :: xs).getLast (List.cons_ne_nil x xs))
  | _ => none

/-- `thread_root_id`: under the same truthiness guard returns
`self.references[0]`, the first element; otherwise returns `self.id`. -/
def thread_root_id (a : Annotation ) : Option String :=
  match a.references with
  | some (x :: _) => some x
  | _ => a.id

end Annotation

/-- The writable public interface of the model: one operation per column
attribute assignable from outside, plus the two hybrid-property setters.
`text_rendered` and `target_uri_normalized` appear in no constructor
because the class exposes no setter for them. -/
inductive Op where
  | opSetText (v : Option String)
  | opSetTargetUri (v : Option String)
  | opSetId (v : Option String)
  | opSetCreated (v : Option Nat)
  | opSetUpdated (v : Option Nat)
  | opSetUserid (v : Option String)
  | opSetGroupid (v : Option String)
  | opSetTags (v : Option (List String))
  | opSetShared (v : Option Bool)
  | opSetTargetSelectors (v : Option (List String))
  | opSetReferences (v : Option (List String))
  | opSetExtra (v : Option (List (String × String)))
  | opSetDeleted (v : Option Bool)
  | opSetDocumentId (v : Option Nat)
  deriving Repr, DecidableEq

namespace Annotation

/-- Effect of one public operation on a record.  The hybrid setters go
through `set_text` / `set_target_uri`; every other operation assigns its
column directly, as Python attribute assignment does. -/
def applyOp (render normalize : Option String → Option String)
    (a : Annotation ) : Op → Annotation
  | .opSetText v => a.set_text render v
  | .opSetTargetUri v => a.set_target_uri normalize v
  | .opSetId v => { a with id := v }
  | .opSetCreated v => { a with created := v }
  | .opSetUpdated v => { a with updated := v }
  | .opSetUserid v => { a with userid := v }
  | .opSetGroupid v => { a with groupid := v }
  | .opSetTags v => { a with tags := v }
  | .opSetShared v => { a with shared := v }
  | .opSetTargetSelectors v => { a with target_selectors := v }
  | .opSetReferences v => { a with references := v }
  | .opSetExtra v => { a with extra := v }
  | .opSetDeleted v => { a with deleted := v }
  | .opSetDocumentId v => { a with document_id := v }

/-- Effect of a sequence of public operations, applied left to right. -/
def applyOps (render normalize : Option String → Option String)
    (a : Annotation ) : List Op → Annotation
  | [] => a
  | op :: ops => applyOps render normalize (applyOp render normalize a op) ops

end Annotation

/-- A persisted reply annotation: id assigned, two ancestors, thread root
`"r"` first and immediate parent `"p"` last. -/
def annReply : Annotation :=
  { Annotation.mkDefault 0 with id := some "b", references := some ["r", "p"] }

/-- A single public operation keeps `text_rendered` equal to the render
of the current `text`: the hybrid text setter re-establishes the equation
and no other operation touches either backing column. -/
theorem textInv_applyOp (render normalize : Option String → Option String)
    (a : Annotation ) (op : Op)
    (h : a.text_rendered = render a.text) :
    ( Annotation.applyOp render normalize a op).text_rendered
      = render ( Annotation.applyOp render normalize a op).text := by
  cases op <;>
    simp only [ Annotation.applyOp, Annotation.set_text,
      Annotation.set_target_uri, Annotation.text, Annotation.text_rendered] <;>
    exact h

/-- A single public operation keeps `target_uri_normalized` equal to the
normalization of the current `target_uri`. -/
theorem uriInv_applyOp (render normalize : Option String → Option String)
    (a : Annotation ) (op : Op)
    (h : a.target_uri_normalized = normalize a.target_uri) :
    ( Annotation.applyOp render normalize a op).target_uri_normalized
      = normalize ( Annotation.applyOp render normalize a op).target_uri := by
  cases op <;>
    simp only [ Annotation.applyOp, Annotation.set_text,
      Annotation.set_target_uri, Annotation.target_uri,
      Annotation.target_uri_normalized] <;>
    exact h

/-- A sequence of public operations preserves the text invariant. -/
theorem textInv_applyOps (render normalize : Option String → Option String)
    (a : Annotation ) (ops : List Op)
    (h : a.text_rendered = render a.text) :
    ( Annotation.applyOps render normalize a ops).text_rendered
      = render ( Annotation.applyOps render normalize a ops).text := by
  induction ops generalizing a with
  | nil => exact h
  | cons op ops ih =>
      exact ih _ (textInv_applyOp render normalize a op h)

/-- A sequence of public operations preserves the URI invariant. -/
theorem uriInv_applyOps (render normalize : Option String → Option String)
    (a : Annotation ) (ops : List Op)
    (h : a.target_uri_normalized = normalize a.target_uri) :
    ( Annotation.applyOps render normalize a ops).target_uri_normalized
      = normalize ( Annotation.applyOps render normalize a ops).target_uri := by
  induction ops generalizing a with
  | nil => exact h
  | cons op ops ih =>
      exact ih _ (uriInv_applyOp render normalize a op h)

/-- C1: immediately after assigning a non-null string `v` through the
`text` setter, the `text` getter returns `v` and the `text_rendered`
getter returns exactly `markdown.render(v)` — never a rendering of an
earlier value, even after repeated assignments. -/
theorem set_text_then_get (render : Option String → Option String)
    (a : Annotation ) (v : String) :
    (a.set_text render (some v)).text = some v ∧
    (a.set_text render (some v)).text_rendered = render (some v) ∧
    ∀ u : Option String,
      ((a.set_text render u).set_text render (some v)).text_rendered
        = render (some v) :=
  ⟨rfl, rfl, fun _ => rfl⟩

/-- C2: immediately after assigning a non-null string `u` through the
`target_uri` setter, the `target_uri` getter returns `u` and the
`target_uri_normalized` getter returns exactly `uri.normalize(u)`. -/
theorem set_target_uri_then_get (normalize : Option String → Option String)
    (a : Annotation ) (u : String) :
    (a.set_target_uri normalize (some u)).target_uri = some u ∧
    (a.set_target_uri normalize (some u)).target_uri_normalized
      = normalize (some u) :=
  ⟨rfl, rfl⟩

/-- C3 counterexample: the `tags` column declares no default at all, so a
default-constructed record has `tags` unset (null), not the empty
sequence the claim states. -/
theorem mkDefault_tags_not_empty_list :
    ¬ ( Annotation.mkDefault 0).tags = some [] := by
  decide

/-- C3 amended: a default-constructed record has
`groupid = "__world__"`, `shared = false`, `deleted = false`,
`target_selectors = []`, `references = []` and `extra = {}`, but `tags`
is unset (null) because that column declares no default. -/
theorem mkDefault_fields (now : Nat) :
    ( Annotation.mkDefault now).groupid = some "__world__" ∧
    ( Annotation.mkDefault now).shared = some false ∧
    ( Annotation.mkDefault now).deleted = some false ∧
    ( Annotation.mkDefault now).tags = none ∧
    ( Annotation.mkDefault now).target_selectors = some [] ∧
    ( Annotation.mkDefault now).references = some [] ∧
    ( Annotation.mkDefault now).extra = some [] :=
  ⟨rfl, rfl, rfl, rfl, rfl, rfl, rfl⟩

/-- C4 counterexample: on a record whose `id` is still unset and whose
`references` is empty, `thread_root_id` returns the unset `id`, i.e.
null — refuting the claim that its result is never null. -/
theorem thread_root_id_null :
    ( Annotation.mkDefault 0).thread_root_id = none := rfl

/-- C4 amended: `thread_root_id` returns `references[0]` when
`references` is non-empty and the record's own `id` when it is empty;
the result is non-null whenever the record's `id` is non-null (as it is
for every persisted record). -/
theorem thread_root_id_spec (a : Annotation ) :
    (∀ x xs, a.references = some (x :: xs) → a.thread_root_id = some x) ∧
    ((a.references = none ∨ a.references = some []) →
      a.thread_root_id = a.id) ∧
    (a.id.isSome → a.thread_root_id.isSome) := by
  refine ⟨?_, ?_, ?_⟩
  · intro x xs h
    simp [ Annotation.thread_root_id, h]
  · rintro (h | h) <;> simp [ Annotation.thread_root_id, h]
  · intro h
    rcases hr : a.references with _ | l
    · simpa [ Annotation.thread_root_id, hr] using h
    · cases l with
      | nil => simpa [ Annotation.thread_root_id, hr] using h
      | cons x xs => simp [ Annotation.thread_root_id, hr]

/-- C4 witness: the amended claim evaluated on concrete records. -/
theorem thread_root_id_spec_witness :
    annReply.thread_root_id = some "r" ∧
    ( Annotation.mkDefault 0).thread_root_id = ( Annotation.mkDefault 0).id ∧
    annReply.thread_root_id.isSome :=
  ⟨(thread_root_id_spec annReply).1 "r" ["p"] rfl,
   (thread_root_id_spec ( Annotation.mkDefault 0)).2.1 (Or.inr rfl),
   (thread_root_id_spec annReply).2.2 rfl⟩

/-- C5: `parent_id` returns the last element of `references` when it is
non-empty and null when it is empty (`List.getLast?` is exactly that). -/
theorem parent_id_spec (a : Annotation ) (l : List String)
    (h : a.references = some l) : a.parent_id = l.getLast? := by
  cases l with
  | nil => simp [ Annotation.parent_id, h]
  | cons x xs => simp [ Annotation.parent_id, h, List.getLast?_eq_getLast]

/-- C5 witness: on a reply with ancestors `["r", "p"]`, `parent_id`
returns the immediate parent `"p"`. -/
theorem parent_id_spec_witness : annReply.parent_id = some "p" := by
  rw [parent_id_spec annReply ["r", "p"] rfl]
  rfl

/-- C6: once `text` has been written through its setter, every sequence
of public operations leaves `text_rendered` equal to the render of the
current `text` — the two cannot diverge, since `text_rendered` has no
setter of its own. -/
theorem text_rendered_never_diverges
    (render normalize : Option String → Option String)
    (a : Annotation ) (v : Option String) (ops : List Op) :
    ( Annotation.applyOps render normalize (a.set_text render v) ops).text_rendered
      = render
        ( Annotation.applyOps render normalize (a.set_text render v) ops).text :=
  textInv_applyOps render normalize _ ops rfl

/-- C7: once `target_uri` has been written through its setter, every
sequence of public operations leaves `target_uri_normalized` equal to
the normalization of the current `target_uri` — it is never written
independently and has no setter of its own. -/
theorem target_uri_normalized_never_diverges
    (render normalize : Option String → Option String)
    (a : Annotation ) (v : Option String) (ops : List Op) :
    ( Annotation.applyOps render normalize
        (a.set_target_uri normalize v) ops).target_uri_normalized
      = normalize
        ( Annotation.applyOps render normalize
          (a.set_target_uri normalize v) ops).target_uri :=
  uriInv_applyOps render normalize _ ops rfl

/-- C8: the `text` setter changes only the text pair and the
`target_uri` setter changes only the URI pair; every other field —
`updated` and `created` included — is left unchanged. -/
theorem setters_frame (render normalize : Option String → Option String)
    (a : Annotation ) (v : Option String) :
    ((a.set_text render v).id = a.id ∧
     (a.set_text render v).created = a.created ∧
     (a.set_text render v).updated = a.updated ∧
     (a.set_text render v).userid = a.userid ∧
     (a.set_text render v).groupid = a.groupid ∧
     (a.set_text render v).tags = a.tags ∧
     (a.set_text render v).shared = a.shared ∧
     (a.set_text render v)._target_uri = a._target_uri ∧
     (a.set_text render v)._target_uri_normalized
       = a._target_uri_normalized ∧
     (a.set_text render v).target_selectors = a.target_selectors ∧
     (a.set_text render v).references = a.references ∧
     (a.set_text render v).extra = a.extra ∧
     (a.set_text render v).deleted = a.deleted ∧
     (a.set_text render v).document_id = a.document_id) ∧
    ((a.set_target_uri normalize v).id = a.id ∧
     (a.set_target_uri normalize v).created = a.created ∧
     (a.set_target_uri normalize v).updated = a.updated ∧
     (a.set_target_uri normalize v).userid = a.userid ∧
     (a.set_target_uri normalize v).groupid = a.groupid ∧
     (a.set_target_uri normalize v)._text = a._text ∧
     (a.set_target_uri normalize v)._text_rendered = a._text_rendered ∧
     (a.set_target_uri normalize v).tags = a.tags ∧
     (a.set_target_uri normalize v).shared = a.shared ∧
     (a.set_target_uri normalize v).target_selectors = a.target_selectors ∧
     (a.set_target_uri normalize v).references = a.references ∧
     (a.set_target_uri normalize v).extra = a.extra ∧
     (a.set_target_uri normalize v).deleted = a.deleted ∧
     (a.set_target_uri normalize v).document_id = a.document_id) :=
  ⟨⟨rfl, rfl, rfl, rfl, rfl, rfl, rfl, rfl, rfl, rfl, rfl, rfl, rfl, rfl⟩,
   ⟨rfl, rfl, rfl, rfl, rfl, rfl, rfl, rfl, rfl, rfl, rfl, rfl, rfl, rfl⟩⟩

/-- C9: `parent_id` and `thread_root_id` are total for every state of
`references`, and an unset (null) `references` behaves exactly like the
empty sequence: `parent_id` is null and `thread_root_id` is the record's
own `id`. -/
theorem references_guard_total (a : Annotation ) :
    ({ a with references := none } : Annotation ).parent_id = none ∧
    ({ a with references := none } : Annotation ).thread_root_id = a.id ∧
    ({ a with references := some [] } : Annotation ).parent_id = none ∧
    ({ a with references := some [] } : Annotation ).thread_root_id = a.id :=
  ⟨rfl, rfl, rfl, rfl⟩

/-- C10: both setters invoke their collaborator unconditionally, also on
null input: after assigning null, the derived field holds the
collaborator's output on null, not null itself. -/
theorem setters_unconditional_on_null
    (render normalize : Option String → Option String) (a : Annotation ) :
    (a.set_text render none).text_rendered = render none ∧
    (a.set_target_uri normalize none).target_uri_normalized
      = normalize none :=
  ⟨rfl, rfl⟩
